import Mathlib

/-!
# Verification of the PII detection / masking core (`src/core/detection_engine.py`)

This file is a shallow embedding, in Lean 4, of the detection-fusion and
masking pipeline of the Cloak & Style repository: the `PIIDetectionEngine`
class of `src/core/detection_engine.py`.  Text is modelled as `List Char`,
Python floats used as confidences are modelled as exact rationals (the code
only ever compares the fixed literals 1.0, 0.85, 0.8, 0.3, 0.35, 0.65, on
which rational and IEEE comparison agree), and the regular-expression
patterns of the rule-based detector are modelled by a small backtracking
matcher with Python `re` semantics (leftmost match, greedy quantifiers,
word boundaries, negative lookahead, `re.IGNORECASE`), restricted to the
constructs the eight patterns of the engine actually use.

The model backend (`_detect_ml`'s loaded detector) is a pluggable external
component.  `__init__` loads at most one backend, so the engine state is
modelled as an optional backend with one constructor per branch of
`_detect_ml`: the `longtransformer` detector and the custom model each
return either an exception (`Except.error`) or a PII dictionary
(label -> matched strings), the BERT-NER model returns an exception or a
(token, label) list, and the base-DeBERTa branch is the engine's own
deterministic capitalization heuristic with no external call.  Each
fallible call is wrapped exactly where the Python `try`/`except` sits.

`DetectionResult.processing_time` (wall-clock time) is not modelled.
-/

namespace PIICloak

/-! ## Data model: `PIIEntity`, `DetectionResult`, configuration -/

/-- `PIIEntity` from `detection_engine.py` (lines 17-26).  `value` is the
matched substring, `start_pos`/`end_pos` are half-open character offsets,
`confidence` a float modelled as `ℚ`. -/
structure PIIEntity where
  entity_type : String
  value : List Char
  start_pos : Nat
  end_pos : Nat
  confidence : ℚ
  detection_method : String
  status : String
deriving DecidableEq, Repr

/-- The `validation` sub-dictionary of the engine configuration
(`min_confidence` and `questionable_band`, lines 52-56). -/
structure ValidationCfg where
  min_confidence : ℚ
  questionable_band : ℚ × ℚ
deriving DecidableEq, Repr

/-- The engine configuration keys actually read by the modelled code paths:
`mask_format` (read in `_mask_text`) and `validation`
(read in `_mark_questionable_entities`).  The remaining keys of the default
config dictionary (`language`, `entities`, `caps`, `reports`, `backend`,
`review_queue`, `dry_run`) are never consulted by `detect_pii` and are
omitted. -/
structure Config where
  mask_format : String
  validation : ValidationCfg
deriving DecidableEq, Repr

/-- The default configuration built in `__init__` (lines 43-58):
`mask_format = "TOKEN"`, `min_confidence = 0.35`,
`questionable_band = [0.35, 0.65]`. -/
def defaultConfig : Config :=
  { mask_format := "TOKEN"
    validation := { min_confidence := mkRat 35 100, questionable_band := (mkRat 35 100, mkRat 65 100) } }

/-- `DetectionResult` (lines 28-36), minus the wall-clock
`processing_time` field. -/
structure DetectionResult where
  entities_found : List PIIEntity
  masked_content : List Char
  original_text : List Char
  questionable_entities : List PIIEntity
  residual_entities : List PIIEntity
deriving DecidableEq, Repr

/-! ## A Python-`re` style backtracking regular-expression matcher

The eight patterns in `self.patterns` (lines 101-110) use only: one-character
classes, concatenation, greedy bounded/unbounded repetition of a character
class, greedy `?` on a sub-expression, word boundaries `\b`, and one negative
lookahead `(?!\d)`.  `reMatches` returns the list of possible end positions of
a match starting at `i`, in exactly the priority order in which a
backtracking engine (such as CPython's `re`) tries them, so its head is the
end position `re` reports.  All patterns are compiled with `re.IGNORECASE`
(line 169), which `clsTest` bakes into character-class tests. -/

/-- Python's `\s` (ASCII range), also the characters removed by
`str.strip()`. -/
def isPySpace (c : Char) : Bool :=
  c = ' ' || c = '\t' || c = '\n' || c = '\r' || c = '\x0b' || c = '\x0c'

/-- Python's `\w` (ASCII range): letters, digits, underscore. -/
def isWordChar (c : Char) : Bool :=
  c.isAlphanum || c = '_'

/-- Case-insensitive character-class test (`re.IGNORECASE`). -/
def clsTest (p : Char → Bool) (c : Char) : Bool :=
  p c || p c.toLower || p c.toUpper

/-- Regular-expression syntax needed for the engine's patterns. -/
inductive RE where
  /-- empty expression -/
  | eps : RE
  /-- one character of a class -/
  | cls : (Char → Bool) → RE
  /-- concatenation -/
  | seq : RE → RE → RE
  /-- greedy repetition `{lo,hi}` of a one-character class
  (`hi = none` means unbounded) -/
  | rep : (Char → Bool) → Nat → Option Nat → RE
  /-- greedy `?` -/
  | opt : RE → RE
  /-- word boundary `\b` -/
  | wb : RE
  /-- negative lookahead `(?!...)` -/
  | nlk : RE → RE

/-- `\b`: positions where word-ness changes (Python semantics; ASCII). -/
def atWordBoundary (s : List Char) (i : Nat) : Bool :=
  let before := match i with
    | 0 => false
    | j + 1 => match s.get? j with | some c => isWordChar c | none => false
  let after := match s.get? i with | some c => isWordChar c | none => false
  before != after

/-- Length of the maximal run of characters of class `p` starting at `i`. -/
def runLen (p : Char → Bool) (s : List Char) (i : Nat) : Nat :=
  ((s.drop i).takeWhile (clsTest p)).length

/-- End positions (in backtracking priority order) of matches of `r`
starting at position `i` of `s`. -/
def reMatches : RE → List Char → Nat → List Nat
  | .eps, _, i => [i]
  | .cls p, s, i =>
      match s.get? i with
      | some c => if clsTest p c then [i + 1] else []
      | none => []
  | .seq a b, s, i => (reMatches a s i).flatMap (reMatches b s)
  | .rep p lo hi, s, i =>
      let k := runLen p s i
      let top := match hi with | none => k | some h => min k h
      if top < lo then []
      else (List.range (top + 1 - lo)).map (fun d => i + top - d)
  | .opt r, s, i => reMatches r s i ++ [i]
  | .wb, s, i => if atWordBoundary s i then [i] else []
  | .nlk r, s, i => if (reMatches r s i).isEmpty then [i] else []

/-- The end position `re` reports for a match anchored at `i`
(first in backtracking order), if any. -/
def firstMatchEnd (r : RE) (s : List Char) (i : Nat) : Option Nat :=
  (reMatches r s i).head?

/-- `re.finditer` loop: scan start positions left to right, report the
leftmost match, continue at its end (one past it for empty reMatches).
`fuel` only bounds the recursion; `s.length + 2` is always enough. -/
def findIterAux (r : RE) (s : List Char) : Nat → Nat → List (Nat × Nat)
  | 0, _ => []
  | fuel + 1, pos =>
      if pos > s.length then []
      else
        match firstMatchEnd r s pos with
        | some e =>
            (pos, e) :: findIterAux r s fuel (if pos < e then e else pos + 1)
        | none => findIterAux r s fuel (pos + 1)

/-- All (non-overlapping, leftmost) matches of `r` in `s`, as half-open
`(start, end)` spans, in the order `re.finditer` yields them. -/
def findIter (r : RE) (s : List Char) : List (Nat × Nat) :=
  findIterAux r s (s.length + 2) 0

/-- A literal character. -/
def lit (c : Char) : RE := .cls (· = c)

/-- `\d`. -/
def dCls : Char → Bool := Char.isDigit

/-- `\d{n}`. -/
def dRep (n : Nat) : RE := .rep dCls n (some n)

/-- `'EMAIL': r'\b[A-Za-z0-9._%+-]+@[A-Za-z0-9.-]+\.[A-Z|a-z]{2,}\b'` -/
def emailRe : RE :=
  .seq .wb <| .seq (.rep (fun c => c.isAlphanum || c = '.' || c = '_' || c = '%' || c = '+' || c = '-') 1 none) <|
  .seq (lit '@') <| .seq (.rep (fun c => c.isAlphanum || c = '.' || c = '-') 1 none) <|
  .seq (lit '.') <| .seq (.rep (fun c => c.isAlpha || c = '|') 2 none) .wb

/-- `'PHONE': r'\b\(?\d{3}\)?[-.\s]?\d{3}[-.\s]?\d{4}\b(?!\d)'` -/
def phoneRe : RE :=
  .seq .wb <| .seq (.opt (lit '(')) <| .seq (dRep 3) <| .seq (.opt (lit ')')) <|
  .seq (.opt (.cls (fun c => c = '-' || c = '.' || isPySpace c))) <| .seq (dRep 3) <|
  .seq (.opt (.cls (fun c => c = '-' || c = '.' || isPySpace c))) <| .seq (dRep 4) <|
  .seq .wb (.nlk (.cls dCls))

/-- `'SSN': r'\b\d{3}-\d{2}-\d{4}\b'` -/
def ssnRe : RE :=
  .seq .wb <| .seq (dRep 3) <| .seq (lit '-') <| .seq (dRep 2) <|
  .seq (lit '-') <| .seq (dRep 4) .wb

/-- `'CREDIT_CARD': r'\b\d{4}[-\s]?\d{4}[-\s]?\d{4}[-\s]?\d{4}\b'` -/
def creditCardRe : RE :=
  .seq .wb <| .seq (dRep 4) <| .seq (.opt (.cls (fun c => c = '-' || isPySpace c))) <|
  .seq (dRep 4) <| .seq (.opt (.cls (fun c => c = '-' || isPySpace c))) <|
  .seq (dRep 4) <| .seq (.opt (.cls (fun c => c = '-' || isPySpace c))) <|
  .seq (dRep 4) .wb

/-- `'IP_ADDRESS': r'\b(?:\d{1,3}\.){3}\d{1,3}\b'` (the `{3}` group is
expanded syntactically). -/
def ipAddressRe : RE :=
  .seq .wb <| .seq (.rep dCls 1 (some 3)) <| .seq (lit '.') <|
  .seq (.rep dCls 1 (some 3)) <| .seq (lit '.') <|
  .seq (.rep dCls 1 (some 3)) <| .seq (lit '.') <|
  .seq (.rep dCls 1 (some 3)) .wb

/-- `'URL': r'https?://(?:[-\w.])+(?:[:\d]+)?(?:/(?:[\w/_.])*(?:\?(?:[\w&=%.])*)?(?:#(?:[\w.])*)?)?'` -/
def urlRe : RE :=
  .seq (lit 'h') <| .seq (lit 't') <| .seq (lit 't') <| .seq (lit 'p') <|
  .seq (.opt (lit 's')) <| .seq (lit ':') <| .seq (lit '/') <| .seq (lit '/') <|
  .seq (.rep (fun c => c = '-' || isWordChar c || c = '.') 1 none) <|
  .seq (.opt (.rep (fun c => c = ':' || c.isDigit) 1 none)) <|
  .opt (.seq (lit '/') <|
    .seq (.rep (fun c => isWordChar c || c = '/' || c = '.') 0 none) <|
    .seq (.opt (.seq (lit '?') (.rep (fun c => isWordChar c || c = '&' || c = '=' || c = '%' || c = '.') 0 none))) <|
    .opt (.seq (lit '#') (.rep (fun c => isWordChar c || c = '.') 0 none)))

/-- `'DATE'` pattern: `\b`, 1-2 digits, a slash or dash, 1-2 digits, a slash
or dash, 2-4 digits, `\b`. -/
def dateRe : RE :=
  .seq .wb <| .seq (.rep dCls 1 (some 2)) <| .seq (.cls (fun c => c = '/' || c = '-')) <|
  .seq (.rep dCls 1 (some 2)) <| .seq (.cls (fun c => c = '/' || c = '-')) <|
  .seq (.rep dCls 2 (some 4)) .wb

/-- `'ZIP_CODE': r'\b\d{5}(?:-\d{4})?\b'` -/
def zipCodeRe : RE :=
  .seq .wb <| .seq (dRep 5) <| .seq (.opt (.seq (lit '-') (dRep 4))) .wb

/-- `self.patterns` (lines 101-110), in Python dict insertion order. -/
def patterns : List (String × RE) :=
  [("EMAIL", emailRe), ("PHONE", phoneRe), ("SSN", ssnRe),
   ("CREDIT_CARD", creditCardRe), ("IP_ADDRESS", ipAddressRe),
   ("URL", urlRe), ("DATE", dateRe), ("ZIP_CODE", zipCodeRe)]

/-! ## Validators (`_luhn_check`, `_validate_ip`, `_validate_ssn`) -/

/-- The running checksum loop of `_luhn_check` (lines 561-567): the list
argument is the reversed digit list, the second argument the running index
`i` of `enumerate`; digits at odd indices are doubled (minus 9 if ≥ 10). -/
def luhnSum : List Nat → Nat → Nat
  | [], _ => 0
  | d :: rest, i =>
      (if i % 2 = 1 then (if d * 2 < 10 then d * 2 else d * 2 - 9) else d)
        + luhnSum rest (i + 1)

/-- `_luhn_check` (lines 552-569): keep the digit characters (all
non-digits are dropped, not just separators), require 13-19 digits, and
check the Luhn checksum. -/
def luhnCheck (number : List Char) : Bool :=
  let digits := (number.filter Char.isDigit).map (fun c => c.toNat - 48)
  if digits.length < 13 || digits.length > 19 then false
  else luhnSum digits.reverse 0 % 10 = 0

/-- Parse a non-empty all-digit string as a `Nat` (the behaviour of
Python's `int(part)` on the dotted parts produced by the IPv4 regex, whose
matches contain only digits and dots). -/
def parseDigits (p : List Char) : Option Nat :=
  if p.isEmpty || !p.all Char.isDigit then none
  else some (p.foldl (fun acc c => acc * 10 + (c.toNat - 48)) 0)

/-- `_validate_ip` (lines 571-585): four dot-separated parts, each an
integer in 0..255. -/
def validateIp (ip : List Char) : Bool :=
  let parts := ip.splitOn '.'
  parts.length = 4 &&
    parts.all (fun p => match parseDigits p with
      | some n => decide (n ≤ 255)
      | none => false)

/-- `_validate_ssn` (lines 587-602): 9 digits after removing dashes;
rejects first group `000`/`666`/`9xx`, middle group `00`, last group
`0000`. -/
def validateSsn (ssn : List Char) : Bool :=
  let clean := ssn.filter (fun c => c ≠ '-')
  if clean.length ≠ 9 then false
  else if clean.take 3 = ['0', '0', '0'] then false
  else if clean.take 3 = ['6', '6', '6'] then false
  else if clean.take 1 = ['9'] then false
  else if (clean.drop 3).take 2 = ['0', '0'] then false
  else if clean.drop 5 = ['0', '0', '0', '0'] then false
  else true

/-- `self.validators` (lines 113-117): dispatch on the entity type;
entity types without a validator accept every match. -/
def applyValidator (entityType : String) (value : List Char) : Bool :=
  if entityType = "CREDIT_CARD" then luhnCheck value
  else if entityType = "IP_ADDRESS" then validateIp value
  else if entityType = "SSN" then validateSsn value
  else true

/-! ## Rule-based detection and residual validation -/

/-- `text[a:b]` for `a ≤ b`. -/
def slice (text : List Char) (a b : Nat) : List Char :=
  (text.drop a).take (b - a)

/-- The shared body of `_detect_rule_based` (lines 164-189) and
`_validate_residual_pii` (lines 386-411): both run every pattern over the
text with `re.finditer`, drop matches failing their validator, and emit one
entity per surviving match with `confidence = 1.0`; they differ only in the
`detection_method` and `status` tags. -/
def genericPatternDetect (method status : String) (text : List Char) : List PIIEntity :=
  patterns.flatMap (fun pat =>
    (findIter pat.2 text).filterMap (fun span =>
      let v := slice text span.1 span.2
      if applyValidator pat.1 v then
        some { entity_type := pat.1, value := v, start_pos := span.1,
               end_pos := span.2, confidence := 1, detection_method := method,
               status := status }
      else none))

/-- `_detect_rule_based` (lines 164-189). -/
def detectRuleBased (text : List Char) : List PIIEntity :=
  genericPatternDetect "rule_based" "auto_masked" text

/-- `_validate_residual_pii` (lines 386-411). -/
def validateResidualPii (maskedText : List Char) : List PIIEntity :=
  genericPatternDetect "residual_validation" "residual" maskedText

/-! ## ML detection (`_detect_ml`, longtransformer backend path) -/

/-- The `pii_dict` the longtransformer backend's `mask_pii` returns:
backend labels mapped to the list of strings found for that label
(Python dict, insertion-ordered). -/
def PiiDict : Type := List (String × List (List Char))

/-- Python `str.find`: index of the first occurrence of `needle` in
`hay.drop i`, or `none` (Python `-1`). -/
def pyFindAux (hay needle : List Char) (i : Nat) : Option Nat :=
  if needle.isPrefixOf hay then some i
  else
    match hay with
    | [] => none
    | _ :: t => pyFindAux t needle (i + 1)

/-- Python `text.find(value)`. -/
def pyFind (hay needle : List Char) : Option Nat :=
  pyFindAux hay needle 0

/-- Python `str.strip()`: remove ASCII whitespace at both ends. -/
def pyStrip (v : List Char) : List Char :=
  ((v.dropWhile isPySpace).reverse.dropWhile isPySpace).reverse

/-- Python `str.isdigit()` (ASCII): non-empty and all digits. -/
def pyIsDigit (v : List Char) : Bool :=
  !v.isEmpty && v.all Char.isDigit

/-- `_map_ml_label_to_pii_type` (lines 273-292). -/
def mapMlLabelToPiiType (label : String) : Option String :=
  List.lookup label
    [("LABEL_0", "EMAIL"), ("LABEL_1", "ID_NUM"), ("LABEL_2", "PERSON"),
     ("LABEL_3", "PERSON"), ("LABEL_4", "PERSON"), ("LABEL_5", "PERSON"),
     ("LABEL_6", "USERNAME"), ("LABEL_7", "PERSON"), ("LABEL_8", "PERSON"),
     ("LABEL_9", "PHONE"), ("LABEL_10", "ADDRESS"), ("LABEL_11", "PERSON"),
     ("LABEL_12", "URL")]

/-- `_improve_entity_classification` (lines 294-310): reclassify from value
content (`value.lower().strip()`); only `entity_type` is mutated. -/
def improveEntityClassification (e : PIIEntity) : PIIEntity :=
  let v := pyStrip (e.value.map Char.toLower)
  if '@' ∈ v ∧ '.' ∈ v then { e with entity_type := "EMAIL" }
  else if pyIsDigit v ∧ v.length ≥ 4 then { e with entity_type := "ID_NUM" }
  else if v ∈ ["hello".toList, "hi".toList, "hey".toList] then
    { e with entity_type := "GREETING" }
  else if v ∈ ["email".toList, "phone".toList, "address".toList, "name".toList] then
    { e with entity_type := "FIELD_LABEL" }
  else if v ∈ ["my".toList, "i".toList, "me".toList] then
    { e with entity_type := "PRONOUN" }
  else e

/-- `_filter_ml_entities` (lines 312-334): drop tokenization noise. -/
def filterMlEntities (entities : List PIIEntity) : List PIIEntity :=
  entities.filter (fun e =>
    let s := pyStrip e.value
    !(s.length ≤ 1) &&
    !(s ∈ [[','], ['.'], [':'], [';'], ['!'], ['?'], [' '], ['\n'], ['\t']]) &&
    !(s.length < 2) &&
    !(pyIsDigit s && s.length < 4))

/-- The longtransformer branch of `_detect_ml` (lines 196-228) applied to a
backend `pii_dict`: for each label's values, locate the value in the
original text (`text.find`), map the backend label to a PII type (unmapped
labels are dropped), tag with confidence 0.85 and method
`longtransformer_pii`; then the noise filter, the reclassification pass and
the non-PII sentinel filter. -/
def detectMlFromDict (text : List Char) (d : PiiDict) : List PIIEntity :=
  let raw := d.flatMap (fun lv =>
    lv.2.filterMap (fun v =>
      match pyFind text v with
      | none => none
      | some s =>
          match mapMlLabelToPiiType lv.1 with
          | none => none
          | some t =>
              some { entity_type := t, value := v, start_pos := s,
                     end_pos := s + v.length, confidence := mkRat 85 100,
                     detection_method := "longtransformer_pii",
                     status := "auto_masked" }))
  let filtered := filterMlEntities raw
  let improved := filtered.map improveEntityClassification
  improved.filter (fun e =>
    e.entity_type ∉ ["GREETING", "FIELD_LABEL", "PRONOUN"])

/-- The custom-model branch of `_detect_ml` (lines 233-253) applied to its
backend `pii_dict`: unlike the longtransformer branch there is no label
mapping, no noise filter and no reclassification — the dict key itself,
upper-cased (`entity_type.upper()`), becomes the entity type, with
confidence 0.8 and method `custom_pii_model`. -/
def detectMlCustom (text : List Char) (d : PiiDict) : List PIIEntity :=
  d.flatMap (fun lv =>
    lv.2.filterMap (fun v =>
      match pyFind text v with
      | none => none
      | some s =>
          some { entity_type := String.mk (lv.1.data.map Char.toUpper), value := v,
                 start_pos := s, end_pos := s + v.length, confidence := mkRat 8 10,
                 detection_method := "custom_pii_model", status := "auto_masked" }))

/-- Python `token.replace('##', '')`: delete every (non-overlapping,
left-to-right) occurrence of `##`. -/
def replaceHashes : List Char → List Char
  | '#' :: '#' :: rest => replaceHashes rest
  | c :: rest => c :: replaceHashes rest
  | [] => []

/-- The BERT NER label table of `_detect_with_bert_ner` (lines 426-433);
`label_mapping.get(label, 'UNKNOWN')` with the `'UNKNOWN'` sentinel is
`none` here. -/
def bertLabelMapping (label : String) : Option String :=
  List.lookup label
    [("B-PER", "PERSON"), ("I-PER", "PERSON"), ("B-ORG", "ORGANIZATION"),
     ("I-ORG", "ORGANIZATION"), ("B-LOC", "LOCATION"), ("I-LOC", "LOCATION")]

/-- The loop state of `_detect_with_bert_ner` (lines 435-437):
`current_entity`, `current_value`, `current_start` and the accumulated
entity list. -/
structure BertState where
  currentEntity : Option String
  currentValue : List Char
  currentStart : Nat
  acc : List PIIEntity

/-- The entity `_detect_with_bert_ner` appends (lines 445-453, 467-475):
the *stripped* accumulated value, but with `start_pos` the token index at
which the entity started and `end_pos = current_start +
len(current_value)` computed from the unstripped value — token-index
offsets, not character offsets. -/
def mkBertEntity (t : String) (v : List Char) (s : Nat) : PIIEntity :=
  { entity_type := t, value := pyStrip v, start_pos := s, end_pos := s + v.length,
    confidence := mkRat 8 10, detection_method := "bert_ner",
    status := "auto_masked" }

/-- One iteration of the `for i, (token, pred)` loop of
`_detect_with_bert_ner` (lines 439-477): on a `B-` label the pending
entity (if any) is flushed and, when the label is mapped, a new entity
starts at token index `i`; an unmapped `B-` label leaves the pending
entity accumulating; an `I-` label extends the pending value; an `O` label
flushes the pending entity. -/
def bertStep (st : BertState) (p : Nat × String × String) : BertState :=
  let i := p.1
  let token := p.2.1
  let label := p.2.2
  if ['B', '-'].isPrefixOf label.data then
    let acc1 :=
      match st.currentEntity with
      | some t => st.acc ++ [mkBertEntity t st.currentValue st.currentStart]
      | none => st.acc
    match bertLabelMapping label with
    | some t2 =>
        { currentEntity := some t2, currentValue := replaceHashes token.data,
          currentStart := i, acc := acc1 }
    | none => { st with acc := acc1 }
  else if ['I', '-'].isPrefixOf label.data && st.currentEntity.isSome then
    { st with currentValue := st.currentValue ++ ' ' :: replaceHashes token.data }
  else
    match st.currentEntity with
    | some t =>
        if label = "O" then
          { currentEntity := none, currentValue := [],
            currentStart := st.currentStart,
            acc := st.acc ++ [mkBertEntity t st.currentValue st.currentStart] }
        else st
    | none => st

/-- `_detect_with_bert_ner` (lines 413-479) given the (token, label)
stream the tokenizer + model produce for the text.  A pending entity left
at the end of the stream is never flushed (the loop has no epilogue). -/
def detectWithBertNer (toks : List (String × String)) : List PIIEntity :=
  (toks.enum.foldl bertStep ⟨none, [], 0, []⟩).acc

/-- Python `text.split()`: split on whitespace runs, dropping empty
pieces. -/
def pySplit (s : List Char) : List (List Char) :=
  (s.splitOnP isPySpace).filter (fun w => !w.isEmpty)

/-- The `common_words` stop set of `_detect_with_base_deberta`
(line 495). -/
def debertaCommonWords : List (List Char) :=
  ["The".toList, "This".toList, "That".toList, "These".toList, "Those".toList,
   "And".toList, "Or".toList, "But".toList, "In".toList, "On".toList,
   "At".toList, "To".toList, "For".toList, "Of".toList, "With".toList,
   "By".toList]

/-- `_detect_with_base_deberta` (lines 481-508): a pure heuristic over the
text (the loaded model is never called) emitting `POTENTIAL_NAME` entities
of confidence 0.3 for capitalized words.  `text.find(word)` cannot fail
here because every word of `text.split()` is a substring of the text, so
the `Option` is defaulted. -/
def detectWithBaseDeberta (text : List Char) : List PIIEntity :=
  (pySplit text).filterMap (fun word =>
    match word with
    | [] => none
    | c :: _ =>
        if c.isUpper ∧ word.length > 2 ∧ word.getLast? ≠ some '.' ∧
            word.getLast? ≠ some ',' ∧ !word.any Char.isDigit then
          if word ∉ debertaCommonWords then
            some { entity_type := "POTENTIAL_NAME", value := word,
                   start_pos := (pyFind text word).getD 0,
                   end_pos := (pyFind text word).getD 0 + word.length,
                   confidence := mkRat 3 10,
                   detection_method := "base_deberta_heuristic",
                   status := "auto_masked" }
          else none
        else none)

/-- The backend `__init__` (lines 60-98) managed to load, if any: the
cascading `try`/`except` import chain loads *at most one* of the four
candidates, most capable first.  The longtransformer and custom models are
modelled by what their `mask_pii` hands `_detect_ml` — an exception or a
`pii_dict`; the BERT NER fallback by the (token, label) stream its
tokenizer + model produce — an exception or the stream; the base-DeBERTa
branch needs no function at all, since `_detect_with_base_deberta` never
calls the model. -/
inductive MLBackend (ε : Type) where
  | longtransformer : (List Char → Except ε PiiDict) → MLBackend ε
  | customModel : (List Char → Except ε PiiDict) → MLBackend ε
  | bertNer : (List Char → Except ε (List (String × String))) → MLBackend ε
  | baseDeberta : MLBackend ε

/-- The engine's model-detector state: one loaded backend, or none. -/
def Backend (ε : Type) : Type := Option (MLBackend ε)

/-- `_detect_ml` (lines 191-271) with the modelled (single, optional)
backend: no backend, or a raised backend exception, contributes zero
entities — each branch's `try`/`except` swallows its backend's error
before any entity is built (lines 229-230, 252-253, 260-261, 268-269) —
and each loaded backend dispatches to its branch's entity construction. -/
def detectMl {ε : Type} (backend : Backend ε) (text : List Char) : List PIIEntity :=
  match backend with
  | none => []
  | some (.longtransformer f) =>
      match f text with
      | .error _ => []
      | .ok d => detectMlFromDict text d
  | some (.customModel f) =>
      match f text with
      | .error _ => []
      | .ok d => detectMlCustom text d
  | some (.bertNer f) =>
      match f text with
      | .error _ => []
      | .ok toks => detectWithBertNer toks
  | some .baseDeberta => detectWithBaseDeberta text

/-! ## Fusion and resolution (`_fuse_and_resolve_entities`) -/

/-- The overlap test of line 352-353: candidate `c` against existing `x`
(`entity.start_pos < existing.end_pos and entity.end_pos >
existing.start_pos`). -/
def overlapB (c x : PIIEntity) : Bool :=
  c.start_pos < x.end_pos && c.end_pos > x.start_pos

/-- One iteration of the `for entity in all_entities` loop of
`_fuse_and_resolve_entities` (lines 348-369): scan `resolved` for the first
overlapping entity; rule-based beats non-rule-based, between two rule-based
entities strictly higher confidence wins, every other overlap drops the
candidate; `resolved.remove(existing)` removes the first list element equal
to `existing` (`List.erase`), and the winner is appended at the end. -/
def resolveStep (resolved : List PIIEntity) (c : PIIEntity) : List PIIEntity :=
  match resolved.find? (fun x => overlapB c x) with
  | none => resolved ++ [c]
  | some x =>
      if c.detection_method = "rule_based" ∧ x.detection_method ≠ "rule_based" then
        resolved.erase x ++ [c]
      else if c.detection_method = "rule_based" ∧ x.detection_method = "rule_based" then
        if x.confidence < c.confidence then resolved.erase x ++ [c] else resolved
      else resolved

/-- The ascending stable sort of line 345
(`all_entities.sort(key=lambda x: x.start_pos)`); Python's sort and
`List.insertionSort` are both stable sorts, so they agree. -/
def sortByStartAsc (es : List PIIEntity) : List PIIEntity :=
  List.insertionSort (fun a b => a.start_pos ≤ b.start_pos) es

/-- `_fuse_and_resolve_entities` (lines 336-371). -/
def fuseAndResolveEntities (ruleEntities mlEntities : List PIIEntity) : List PIIEntity :=
  let allEntities := ruleEntities ++ mlEntities
  if allEntities.isEmpty then []
  else (sortByStartAsc allEntities).foldl resolveStep []

/-! ## Confidence triage (`_mark_questionable_entities`) -/

/-- `_mark_questionable_entities` (lines 373-384).  The Python code mutates
`entity.status` in place on the shared entity objects and returns the
questionable ones; functionally that is: an updated entity list (the one
all later steps see) plus the selected sublist of it. -/
def markQuestionableEntities (cfg : Config) (entities : List PIIEntity) :
    List PIIEntity × List PIIEntity :=
  let minConf := cfg.validation.min_confidence
  let maxConf := cfg.validation.questionable_band.2
  let updated := entities.map (fun e =>
    if minConf ≤ e.confidence ∧ e.confidence ≤ maxConf then
      { e with status := "questionable" }
    else e)
  (updated, updated.filter (fun e =>
    minConf ≤ e.confidence ∧ e.confidence ≤ maxConf))

/-! ## Masking (`_mask_text`) -/

/-- `self.structured_entities` (lines 120-123). -/
def structuredEntities : List String :=
  ["EMAIL", "CREDIT_CARD", "PHONE", "IP_ADDRESS", "SSN", "NATIONAL_ID",
   "BANK_ACCT", "IP"]

/-- `self.free_text_entities` (lines 126-128). -/
def freeTextEntities : List String :=
  ["PERSON", "BRAND", "ADDRESS", "USERNAME", "GEO"]

/-- Decimal digits of `n`: recursion on a fuel bound (`n + 1` is always
enough, since a number has at most `n + 1` decimal digits). -/
def natDecimalAux : Nat → Nat → List Char
  | 0, _ => []
  | fuel + 1, n =>
      if n < 10 then [Char.ofNat (48 + n)]
      else natDecimalAux fuel (n / 10) ++ [Char.ofNat (48 + n % 10)]

/-- Decimal digits of `n`, as Python `str(n)` renders them. -/
def natDecimal (n : Nat) : List Char :=
  natDecimalAux (n + 1) n

/-- Python `f"{n:03d}"`: zero-pad the decimal form to width 3. -/
def pad3 (n : Nat) : List Char :=
  let s := natDecimal n
  List.replicate (3 - s.length) '0' ++ s

/-- The full opaque token
`f"[{entity.entity_type.upper()}_{token_counter[...]:03d}]"`. -/
def tokenMask (entityType : String) (n : Nat) : List Char :=
  '[' :: (entityType.data.map Char.toUpper ++ '_' :: (pad3 n ++ [']']))

/-- The partial-reveal mask of lines 535-539: first character plus `'*'`
for each remaining character, or a single `'*'` for values of length ≤ 1. -/
def partialMask (v : List Char) : List Char :=
  if v.length > 1 then v.headI :: List.replicate (v.length - 1) '*'
  else ['*']

/-- The mask chosen for one entity given its per-type sequence number `n`
(lines 528-545): structured entities always get the full token; free-text
entities get the partial reveal iff `mask_format == 'PARTIAL_REVEAL'`;
unknown types default to the full token. -/
def maskForEntity (cfg : Config) (e : PIIEntity) (n : Nat) : List Char :=
  if e.entity_type ∈ structuredEntities then tokenMask e.entity_type n
  else if e.entity_type ∈ freeTextEntities then
    if cfg.mask_format = "PARTIAL_REVEAL" then partialMask e.value
    else tokenMask e.entity_type n
  else tokenMask e.entity_type n

/-- `token_counter` update (lines 522-526): first occurrence of a type gets
1, later ones increment; returns the updated counter map and the number
used for this entity. -/
def bumpCounter : List (String × Nat) → String → List (String × Nat) × Nat
  | [], t => ([(t, 1)], 1)
  | (a, b) :: rest, t =>
      if a = t then ((a, b + 1) :: rest, b + 1)
      else
        let r := bumpCounter rest t
        ((a, b) :: r.1, r.2)

/-- The masks assigned to each entity, in masking order, with the running
per-type counters threaded through (the pure content of the loop body of
lines 521-545, separated from the text splicing). -/
def maskAssignments (cfg : Config) : List (String × Nat) → List PIIEntity →
    List (PIIEntity × List Char)
  | _, [] => []
  | tc, e :: rest =>
      let bumped := bumpCounter tc e.entity_type
      (e, maskForEntity cfg e bumped.2) :: maskAssignments cfg bumped.1 rest

/-- One string splice
`masked_text[:start_pos] + mask + masked_text[end_pos:]` (line 548). -/
def spliceMask (txt : List Char) (s e : Nat) (m : List Char) : List Char :=
  txt.take s ++ m ++ txt.drop e

/-- Apply the assigned masks in order (the text-mutating part of the loop
of lines 521-548). -/
def spliceAll : List Char → List (PIIEntity × List Char) → List Char
  | txt, [] => txt
  | txt, (e, m) :: rest => spliceAll (spliceMask txt e.start_pos e.end_pos m) rest

/-- The descending stable in-place sort of line 516
(`entities.sort(key=lambda x: x.start_pos, reverse=True)`). -/
def sortByStartDesc (es : List PIIEntity) : List PIIEntity :=
  List.insertionSort (fun a b => b.start_pos ≤ a.start_pos) es

/-- `_mask_text` (lines 510-550).  Python sorts the caller's entity list in
place and `detect_pii` then stores that same list object in the result, so
the model returns both the masked text and the (sorted) entity list the
caller ends up with.  An empty entity list returns the text unchanged
without sorting (line 512-513). -/
def maskText (cfg : Config) (text : List Char) (entities : List PIIEntity) :
    List Char × List PIIEntity :=
  if entities.isEmpty then (text, entities)
  else
    let sorted := sortByStartDesc entities
    (spliceAll text (maskAssignments cfg [] sorted), sorted)

/-! ## The orchestrator (`detect_pii`) -/

/-- `detect_pii` (lines 130-162): rule-based detection, ML detection (with
the backend's exceptions swallowed inside `_detect_ml`), fusion, triage
(which rewrites statuses on the shared entity list), masking (which sorts
that list descending in place), residual validation. -/
def detectPii {ε : Type} (cfg : Config) (backend : Backend ε)
    (text : List Char) : DetectionResult :=
  let ruleEntities := detectRuleBased text
  let mlEntities := detectMl backend text
  let allEntities := fuseAndResolveEntities ruleEntities mlEntities
  let marked := markQuestionableEntities cfg allEntities
  let maskedPair := maskText cfg text marked.1
  let residual := validateResidualPii maskedPair.1
  { entities_found := maskedPair.2
    masked_content := maskedPair.1
    original_text := text
    questionable_entities := marked.2
    residual_entities := residual }

/-! ## Specification-side definitions

These definitions follow the *specification's words* (not the source) and
exist only to be compared against the source-derived definitions above. -/

/-- The Luhn checksum written the way the specification describes the
algorithm: enumerate the digits from the right, double every second digit
(subtracting 9 when the double exceeds 9), and sum. -/
def luhnSumSpec (ds : List Nat) : Nat :=
  (ds.reverse.enum.map (fun p =>
    if p.1 % 2 = 1 then (if p.2 * 2 < 10 then p.2 * 2 else p.2 * 2 - 9)
    else p.2)).sum

/-- The credit-card validator as the claim states it: strip *separators*
(dashes and whitespace), reject if any non-digit remains (fail closed),
then require 13-19 digits with a matching Luhn checksum. -/
def luhnClaimedSpec (v : List Char) : Bool :=
  let t := v.filter (fun c => !(c = '-' || isPySpace c))
  t.all Char.isDigit && decide (13 ≤ t.length) && decide (t.length ≤ 19) &&
    decide (luhnSumSpec (t.map (fun c => c.toNat - 48)) % 10 = 0)

/-- The credit-card validator as the *amended* claim states it: strip all
non-digit characters (not only separators), then require 13-19 digits with
a matching Luhn checksum. -/
def luhnAmendedSpec (v : List Char) : Bool :=
  let ds := (v.filter Char.isDigit).map (fun c => c.toNat - 48)
  decide (13 ≤ ds.length) && decide (ds.length ≤ 19) &&
    decide (luhnSumSpec ds % 10 = 0)

/-- The no-overlap relation the specification's invariant asks for on
half-open `[start_pos, end_pos)` ranges; it is the exact negation of the
code's overlap test `overlapB`. -/
def NonOverlap (a b : PIIEntity) : Prop :=
  a.start_pos ≥ b.end_pos ∨ b.start_pos ≥ a.end_pos

instance : DecidablePred fun p : PIIEntity × PIIEntity => NonOverlap p.1 p.2 :=
  fun _ => by unfold NonOverlap; infer_instance

/-! ## Shared concrete fixtures used by several theorems -/

/-- The end-to-end scenario input of the specification (§8). -/
def e2eText : List Char :=
  "Contact John Smith at john.smith@email.com or (555) 123-4567, SSN 123-45-6789.".toList

/-- A configuration with `mask_format = "PARTIAL_REVEAL"` and the default
validation thresholds. -/
def partialRevealConfig : Config :=
  { mask_format := "PARTIAL_REVEAL", validation := defaultConfig.validation }

/-- A backend whose `mask_pii` reports the label `LABEL_2` (mapped to
`PERSON`) for the two-character string `J*`. -/
def starBackend : Backend Unit :=
  some (.longtransformer (fun _ => .ok [("LABEL_2", [['J', '*']])]))

/-- Ascending-by-`start_pos` comparison (the order the spec asserts for
`entities_found`). -/
def leStart (a b : PIIEntity) : Prop := a.start_pos ≤ b.start_pos

/-- Descending-by-`start_pos` comparison (the order `_mask_text` sorts
with). -/
def geStart (a b : PIIEntity) : Prop := b.start_pos ≤ a.start_pos

instance : DecidableRel leStart := fun _ _ => Nat.decLe _ _

instance : DecidableRel geStart := fun _ _ => Nat.decLe _ _

instance : IsTotal PIIEntity leStart := ⟨fun _ _ => Nat.le_total _ _⟩

instance : IsTrans PIIEntity leStart := ⟨fun _ _ _ h h' => Nat.le_trans h h'⟩

instance : IsTotal PIIEntity geStart := ⟨fun _ _ => Nat.le_total _ _⟩

instance : IsTrans PIIEntity geStart := ⟨fun _ _ _ h h' => Nat.le_trans h' h⟩


/-- A configuration whose questionable band is widened to `[0.35, 0.9]`
(both triage bounds are configurable), used to exercise triage on a
model-detected entity of confidence 0.85. -/
def wideBandConfig : Config :=
  { mask_format := "TOKEN"
    validation := { min_confidence := mkRat 35 100
                    questionable_band := (mkRat 35 100, mkRat 9 10) } }

/-- A backend reporting the label `LABEL_2` (mapped to `PERSON`) for the
string `John`. -/
def johnBackend : Backend Unit :=
  some (.longtransformer (fun _ => .ok [("LABEL_2", ["John".toList])]))

/-! ## Exception propagation model for the orchestrator (claim C9)

`detect_pii` itself contains no `try`/`except`; the only handlers sit
inside `_detect_ml`, wrapped around the backend's `mask_pii` call.  To
state which exceptions propagate, each deterministic stage is abstracted
as an `Except`-valued function placed exactly where the corresponding call
sits in `detect_pii`, with the model-backend call the only one whose error
is caught. -/

/-- The stages of `detect_pii` as fallible functions. -/
structure DetectStages (ε : Type) where
  ruleStage : List Char → Except ε (List PIIEntity)
  backend : Backend ε
  fuseStage : List PIIEntity → List PIIEntity → Except ε (List PIIEntity)
  triageStage : Config → List PIIEntity → Except ε (List PIIEntity × List PIIEntity)
  maskStage : Config → List Char → List PIIEntity → Except ε (List Char × List PIIEntity)
  residualStage : List Char → Except ε (List PIIEntity)

/-- `detect_pii` with explicit exception plumbing: every stage error
escapes except the model backend's, which `_detect_ml` turns into zero
model entities. -/
def detectPiiStaged {ε : Type} (S : DetectStages ε) (cfg : Config)
    (text : List Char) : Except ε DetectionResult := do
  let ruleEntities ← S.ruleStage text
  let mlEntities := detectMl S.backend text
  let allEntities ← S.fuseStage ruleEntities mlEntities
  let marked ← S.triageStage cfg allEntities
  let maskedPair ← S.maskStage cfg text marked.1
  let residual ← S.residualStage maskedPair.1
  pure { entities_found := maskedPair.2
         masked_content := maskedPair.1
         original_text := text
         questionable_entities := marked.2
         residual_entities := residual }

/-- The actual (non-raising) deterministic stages of the engine, around an
arbitrary backend. -/
def pureStages {ε : Type} (backend : Backend ε) : DetectStages ε :=
  { ruleStage := fun t => .ok (detectRuleBased t)
    backend := backend
    fuseStage := fun r m => .ok (fuseAndResolveEntities r m)
    triageStage := fun cfg es => .ok (markQuestionableEntities cfg es)
    maskStage := fun cfg t es => .ok (maskText cfg t es)
    residualStage := fun t => .ok (validateResidualPii t) }

/-! ## Helper lemmas -/

theorem nonOverlap_symm : ∀ {a b : PIIEntity}, NonOverlap a b → NonOverlap b a :=
  fun h => h.symm

theorem nonOverlap_of_not_overlapB {c x : PIIEntity} (h : ¬ overlapB c x = true) :
    NonOverlap c x := by
  unfold overlapB at h
  unfold NonOverlap
  simp only [Bool.and_eq_true, decide_eq_true_eq, not_and_or, not_lt] at h
  omega

theorem not_overlapB_of_nonOverlap {c x : PIIEntity} (h : NonOverlap c x) :
    ¬ overlapB c x = true := by
  unfold overlapB
  unfold NonOverlap at h
  simp only [Bool.and_eq_true, decide_eq_true_eq, not_and_or, not_lt]
  omega

/-- `luhnSum` computes the enumerated sum of the specification, starting at
any index. -/
theorem luhnSum_enumFrom (l : List Nat) : ∀ i : Nat,
    luhnSum l i = ((l.enumFrom i).map (fun p =>
      if p.1 % 2 = 1 then (if p.2 * 2 < 10 then p.2 * 2 else p.2 * 2 - 9)
      else p.2)).sum := by
  induction l with
  | nil => intro i; simp [luhnSum]
  | cons d rest ih =>
      intro i
      simp only [luhnSum, List.enumFrom, List.map, List.sum_cons, ih (i + 1)]

theorem sortByStartAsc_sorted (es : List PIIEntity) :
    (sortByStartAsc es).Pairwise leStart :=
  List.sorted_insertionSort leStart es

theorem sortByStartAsc_perm (es : List PIIEntity) : List.Perm (sortByStartAsc es) es :=
  List.perm_insertionSort leStart es

theorem sortByStartDesc_sorted (es : List PIIEntity) :
    (sortByStartDesc es).Pairwise geStart :=
  List.sorted_insertionSort geStart es

theorem sortByStartDesc_perm (es : List PIIEntity) : List.Perm (sortByStartDesc es) es :=
  List.perm_insertionSort geStart es

theorem mem_of_erase_append {l : List PIIEntity} {x c y : PIIEntity}
    (hy : y ∈ l.erase x ++ [c]) : y ∈ l ∨ y = c := by
  rcases List.mem_append.mp hy with h1 | h1
  · exact Or.inl (List.mem_of_mem_erase h1)
  · exact Or.inr (List.mem_singleton.mp h1)

/-- Every entity the resolution loop keeps is either an already-resolved
entity or the current candidate. -/
theorem resolveStep_mem {resolved : List PIIEntity} {c y : PIIEntity}
    (hy : y ∈ resolveStep resolved c) : y ∈ resolved ∨ y = c := by
  unfold resolveStep at hy
  cases h : resolved.find? (fun x => overlapB c x) with
  | none =>
      rw [h] at hy
      rcases List.mem_append.mp hy with h1 | h1
      · exact Or.inl h1
      · exact Or.inr (List.mem_singleton.mp h1)
  | some x =>
      rw [h] at hy
      simp only at hy
      split_ifs at hy <;>
        first
        | exact mem_of_erase_append hy
        | exact Or.inl hy

/-- The key geometric fact behind the no-overlap invariant: when every
already-resolved entity starts no later than the candidate and the
resolved set is pairwise non-overlapping, the candidate can overlap at
most one resolved entity — so after the first overlapping entity `x` is
erased, nothing else in `resolved` overlaps the candidate. -/
theorem unique_overlap {resolved : List PIIEntity} {c x y : PIIEntity}
    (hbnd : ∀ z ∈ resolved, z.start_pos ≤ c.start_pos)
    (hp : resolved.Pairwise NonOverlap)
    (hx : x ∈ resolved) (hox : overlapB c x = true)
    (hy : y ∈ resolved.erase x) : ¬ overlapB c y = true := by
  intro hoy
  have hperm := List.perm_cons_erase hx
  have hp2 : (x :: resolved.erase x).Pairwise NonOverlap :=
    (List.Perm.pairwise_iff (fun h => h.symm) hperm).mp hp
  have hxy : NonOverlap x y := (List.pairwise_cons.mp hp2).1 y hy
  have hymem : y ∈ resolved := List.mem_of_mem_erase hy
  have h1 := hbnd x hx
  have h2 := hbnd y hymem
  unfold overlapB at hox hoy
  simp only [Bool.and_eq_true, decide_eq_true_eq] at hox hoy
  unfold NonOverlap at hxy
  omega

theorem resolveStep_pairwise {resolved : List PIIEntity} {c : PIIEntity}
    (hbnd : ∀ z ∈ resolved, z.start_pos ≤ c.start_pos)
    (hp : resolved.Pairwise NonOverlap) :
    (resolveStep resolved c).Pairwise NonOverlap := by
  unfold resolveStep
  cases h : resolved.find? (fun x => overlapB c x) with
  | none =>
      have hnone := List.find?_eq_none.mp h
      refine List.pairwise_append.mpr ⟨hp, List.pairwise_singleton _ _, ?_⟩
      intro z hz y hy
      rw [List.mem_singleton.mp hy]
      exact (nonOverlap_of_not_overlapB (by simpa using hnone z hz)).symm
  | some x =>
      have hox : overlapB c x = true := by simpa using List.find?_some h
      have hxmem : x ∈ resolved := List.mem_of_find?_eq_some h
      have herase : (resolved.erase x ++ [c]).Pairwise NonOverlap := by
        refine List.pairwise_append.mpr
          ⟨hp.sublist (resolved.erase_sublist x), List.pairwise_singleton _ _, ?_⟩
        intro z hz y hy
        rw [List.mem_singleton.mp hy]
        exact (nonOverlap_of_not_overlapB (unique_overlap hbnd hp hxmem hox hz)).symm
      simp only
      split_ifs
      · exact herase
      · exact herase
      · exact hp
      · exact hp

/-- Folding the resolution step over candidates sorted ascending by
`start_pos` keeps the resolved accumulator pairwise non-overlapping. -/
theorem foldl_resolveStep_pairwise :
    ∀ (pending resolved : List PIIEntity),
      pending.Pairwise leStart →
      (∀ x ∈ resolved, ∀ p ∈ pending, x.start_pos ≤ p.start_pos) →
      resolved.Pairwise NonOverlap →
      (pending.foldl resolveStep resolved).Pairwise NonOverlap := by
  intro pending
  induction pending with
  | nil => intro resolved _ _ hp; exact hp
  | cons c rest ih =>
      intro resolved hsort hbnd hp
      simp only [List.foldl_cons]
      have hhead : ∀ z ∈ resolved, z.start_pos ≤ c.start_pos :=
        fun z hz => hbnd z hz c (List.mem_cons_self c rest)
      apply ih
      · exact hsort.of_cons
      · intro x hx p hpmem
        rcases resolveStep_mem hx with hxr | rfl
        · exact hbnd x hxr p (List.mem_cons_of_mem _ hpmem)
        · exact (List.pairwise_cons.mp hsort).1 p hpmem
      · exact resolveStep_pairwise hhead hp

/-- The fusion output is always pairwise non-overlapping, whatever the two
detectors produced. -/
theorem fuse_pairwise (r m : List PIIEntity) :
    (fuseAndResolveEntities r m).Pairwise NonOverlap := by
  unfold fuseAndResolveEntities
  by_cases he : (r ++ m).isEmpty
  · simp [he]
  · simp only [he, if_false]
    exact foldl_resolveStep_pairwise _ []
      (sortByStartAsc_sorted _) (by intro x hx p hp; cases hx) List.Pairwise.nil

/-- Confidence triage only rewrites `status`, so it preserves the
no-overlap invariant. -/
theorem markQuestionable_fst_pairwise (cfg : Config) {es : List PIIEntity}
    (h : es.Pairwise NonOverlap) :
    (markQuestionableEntities cfg es).1.Pairwise NonOverlap := by
  unfold markQuestionableEntities
  simp only
  refine List.pairwise_map.mpr (h.imp ?_)
  intro a b hab
  unfold NonOverlap at hab ⊢
  split_ifs <;> exact hab

/-- `_mask_text`'s in-place descending sort permutes the entity list, so
it too preserves the no-overlap invariant. -/
theorem maskText_snd_pairwise (cfg : Config) (text : List Char) {es : List PIIEntity}
    (h : es.Pairwise NonOverlap) : (maskText cfg text es).2.Pairwise NonOverlap := by
  unfold maskText
  by_cases he : es.isEmpty
  · simp only [he, if_true]
    exact h
  · simp only [he, if_false]
    exact (List.Perm.pairwise_iff (fun hab => hab.symm) (sortByStartDesc_perm es)).mpr h

/-! ## Claim theorems -/

/-- The `entities_found` list of every detection result is pairwise
non-overlapping (shared helper). -/
theorem entitiesFound_pairwise_nonoverlap {ε : Type} (cfg : Config)
    (backend : Backend ε) (text : List Char) :
    (detectPii cfg backend text).entities_found.Pairwise NonOverlap := by
  unfold detectPii
  simp only
  exact maskText_snd_pairwise cfg text
    (markQuestionable_fst_pairwise cfg (fuse_pairwise _ _))

/-- The `entities_found` list of every detection result is sorted
descending by `start_pos` (shared helper). -/
theorem entitiesFound_sorted_desc {ε : Type} (cfg : Config)
    (backend : Backend ε) (text : List Char) :
    (detectPii cfg backend text).entities_found.Pairwise geStart := by
  unfold detectPii maskText
  simp only
  by_cases he : (markQuestionableEntities cfg
      (fuseAndResolveEntities (detectRuleBased text) (detectMl backend text))).1.isEmpty
  · simp only [he, if_true]
    rw [List.isEmpty_iff.mp he]
    exact List.Pairwise.nil
  · simp only [he, if_false]
    exact sortByStartDesc_sorted _

/-- Claim C1: for every `detect_pii` call on any input text (and any
backend behaviour), no two distinct entities in the returned
`entities_found` list have overlapping half-open character ranges: for any
two entities `a` before `b` in the list, `a.start_pos ≥ b.end_pos` or
`b.start_pos ≥ a.end_pos`. -/
theorem detectPii_entities_found_nonoverlapping {ε : Type} (cfg : Config)
    (backend : Backend ε) (text : List Char) :
    (detectPii cfg backend text).entities_found.Pairwise NonOverlap :=
  entitiesFound_pairwise_nonoverlap cfg backend text

/-- Claim C3, counterexample: on the input `"a@b.co 111-22-3333"` with no
model backend, `detect_pii` hands the caller `entities_found` with start
positions `[7, 0]` — not sorted ascending by `start_pos` (the masking
engine's in-place descending sort mutates the very list that is
returned). -/
theorem entities_found_not_ascending_counterexample :
    ((detectPii defaultConfig (none : Backend Unit)
        "a@b.co 111-22-3333".toList).entities_found.map (fun e => e.start_pos)) = [7, 0] ∧
    ¬ (detectPii defaultConfig (none : Backend Unit)
        "a@b.co 111-22-3333".toList).entities_found.Pairwise leStart := by
  exact ⟨by decide, by decide⟩

/-- Claim C3 (amended): the `entities_found` list handed to callers of
`detect_pii` is sorted *descending* by `start_pos`: `_mask_text` sorts the
shared entity list in place in descending order and `detect_pii` returns
that same list.  (Ascending order holds only for the fusion output, before
masking.) -/
theorem detectPii_entities_found_sorted_descending {ε : Type} (cfg : Config)
    (backend : Backend ε) (text : List Char) :
    (detectPii cfg backend text).entities_found.Pairwise geStart :=
  entitiesFound_sorted_desc cfg backend text

/-- Claim C10: every `DetectionResult` returned by `detect_pii` carries the
complete raw input, character for character, in its `original_text` field,
alongside `masked_content`. -/
theorem detectPii_retains_original_text {ε : Type} (cfg : Config)
    (backend : Backend ε) (text : List Char) :
    (detectPii cfg backend text).original_text = text := rfl

/-- Claim C4: fusion processes the concatenated candidates in ascending
`start_pos` order (a stable sort of `rule ++ ml`), and each candidate
contends only with the *first* resolved entity whose span overlaps it
(`List.find?`): a rule-based candidate replaces a non-rule-based existing
entity; between two rule-based entities the candidate wins only with
strictly higher confidence (ties keep the existing entity); every other
overlap drops the candidate; a candidate with no overlap is appended
unconditionally. -/
theorem fusion_resolution_policy :
    (∀ ruleE mlE : List PIIEntity,
      fuseAndResolveEntities ruleE mlE =
        (sortByStartAsc (ruleE ++ mlE)).foldl resolveStep [] ∧
      (sortByStartAsc (ruleE ++ mlE)).Pairwise leStart ∧
      List.Perm (sortByStartAsc (ruleE ++ mlE)) (ruleE ++ mlE)) ∧
    (∀ resolved c, resolved.find? (fun x => overlapB c x) = none →
        resolveStep resolved c = resolved ++ [c]) ∧
    (∀ resolved (c x : PIIEntity), resolved.find? (fun x => overlapB c x) = some x →
      ((c.detection_method = "rule_based" ∧ x.detection_method ≠ "rule_based" →
          resolveStep resolved c = resolved.erase x ++ [c]) ∧
       (c.detection_method = "rule_based" ∧ x.detection_method = "rule_based" →
          (x.confidence < c.confidence → resolveStep resolved c = resolved.erase x ++ [c]) ∧
          (c.confidence ≤ x.confidence → resolveStep resolved c = resolved)) ∧
       (c.detection_method ≠ "rule_based" → resolveStep resolved c = resolved))) := by
  refine ⟨?_, ?_, ?_⟩
  · intro ruleE mlE
    refine ⟨?_, sortByStartAsc_sorted _, sortByStartAsc_perm _⟩
    unfold fuseAndResolveEntities
    by_cases he : (ruleE ++ mlE).isEmpty
    · rw [List.isEmpty_iff.mp he]
      simp [he, sortByStartAsc, List.insertionSort]
    · simp [he]
  · intro resolved c h
    unfold resolveStep
    rw [h]
  · intro resolved c x h
    refine ⟨?_, ?_, ?_⟩
    · intro hc
      unfold resolveStep
      rw [h]
      simp only
      rw [if_pos hc]
    · intro hc
      constructor
      · intro hconf
        unfold resolveStep
        rw [h]
        simp only
        have hne : ¬ (c.detection_method = "rule_based" ∧ x.detection_method ≠ "rule_based") := by
          simp [hc.1, hc.2]
        rw [if_neg hne, if_pos hc, if_pos hconf]
      · intro hconf
        unfold resolveStep
        rw [h]
        simp only
        have hne : ¬ (c.detection_method = "rule_based" ∧ x.detection_method ≠ "rule_based") := by
          simp [hc.1, hc.2]
        rw [if_neg hne, if_pos hc, if_neg (by exact not_lt.mpr hconf)]
    · intro hc
      unfold resolveStep
      rw [h]
      simp only
      rw [if_neg (by simp [hc]), if_neg (by simp [hc])]

/-- Witness for claim C4: a concrete rule-based EMAIL candidate overlapping
one resolved model-based PERSON entity replaces it. -/
theorem fusion_resolution_policy_witness :
    resolveStep
      [⟨"PERSON", "a@b.co".toList, 0, 6, mkRat 85 100, "longtransformer_pii", "auto_masked"⟩]
      ⟨"EMAIL", "a@b.co".toList, 0, 6, 1, "rule_based", "auto_masked"⟩ =
      [⟨"EMAIL", "a@b.co".toList, 0, 6, 1, "rule_based", "auto_masked"⟩] := by
  have h := (fusion_resolution_policy.2.2
    [⟨"PERSON", "a@b.co".toList, 0, 6, mkRat 85 100, "longtransformer_pii", "auto_masked"⟩]
    ⟨"EMAIL", "a@b.co".toList, 0, 6, 1, "rule_based", "auto_masked"⟩
    ⟨"PERSON", "a@b.co".toList, 0, 6, mkRat 85 100, "longtransformer_pii", "auto_masked"⟩
    (by decide)).1 ⟨rfl, by decide⟩
  rw [h]
  decide

/-- Claim C5: masking always replaces a structured entity (EMAIL,
CREDIT_CARD, PHONE, IP_ADDRESS, SSN, NATIONAL_ID, BANK_ACCT, IP) by the
full opaque token `[TYPE_###]`, whatever `mask_format` is configured; in
particular an EMAIL entity under `mask_format = PARTIAL_REVEAL` is still
assigned the full token `[EMAIL_001]`, never a partial-reveal mask. -/
theorem structured_entities_full_token_mask :
    (∀ (cfg : Config) (tc : List (String × Nat)) (es : List PIIEntity)
      (e : PIIEntity) (m : List Char),
      (e, m) ∈ maskAssignments cfg tc es → e.entity_type ∈ structuredEntities →
      ∃ n, m = tokenMask e.entity_type n) ∧
    maskAssignments partialRevealConfig []
      [⟨"EMAIL", "a@b.co".toList, 0, 6, 1, "rule_based", "auto_masked"⟩] =
      [(⟨"EMAIL", "a@b.co".toList, 0, 6, 1, "rule_based", "auto_masked"⟩,
        "[EMAIL_001]".toList)] := by
  constructor
  · intro cfg tc es
    induction es generalizing tc with
    | nil => intro e m hm _; cases hm
    | cons e0 rest ih =>
        intro e m hm hstruct
        simp only [maskAssignments] at hm
        rcases List.mem_cons.mp hm with heq | htail
        · have he : e = e0 := congrArg Prod.fst heq
          have hmv : m = maskForEntity cfg e0 (bumpCounter tc e0.entity_type).2 :=
            congrArg Prod.snd heq
          subst he
          refine ⟨(bumpCounter tc e.entity_type).2, ?_⟩
          rw [hmv]
          unfold maskForEntity
          rw [if_pos hstruct]
        · exact ih _ e m htail hstruct
  · decide

/-- Witness for claim C5: instantiating the theorem at the concrete EMAIL
entity and the partial-reveal configuration: the assigned mask is a full
token. -/
theorem structured_entities_full_token_mask_witness :
    ∃ n, ("[EMAIL_001]".toList : List Char) = tokenMask "EMAIL" n := by
  have h := structured_entities_full_token_mask.1 partialRevealConfig []
    [⟨"EMAIL", "a@b.co".toList, 0, 6, 1, "rule_based", "auto_masked"⟩]
    ⟨"EMAIL", "a@b.co".toList, 0, 6, 1, "rule_based", "auto_masked"⟩
    "[EMAIL_001]".toList (by decide) (by decide)
  simpa using h

/-- Claim C6, counterexample: `_luhn_check` does *not* fail closed on
non-digits — it silently strips every non-digit character, so
`"4111a111111111111"` (which still contains a non-digit after separator
stripping, and which the claim therefore requires to be rejected) is
accepted; and the claimed test vector `"5555444433332222"` is not a valid
Luhn number: the validator returns `false` for it. -/
theorem luhn_fail_closed_counterexample :
    luhnCheck "4111a111111111111".toList = true ∧
    luhnClaimedSpec "4111a111111111111".toList = false ∧
    luhnCheck "5555444433332222".toList = false := by
  exact ⟨by decide, by decide, by decide⟩

/-- Claim C6 (amended): `_luhn_check` strips *all* non-digit characters
(not only separators) and accepts exactly the inputs whose remaining
digit string has 13-19 digits and a matching Luhn checksum; it returns
`true` for `4111111111111111`, and `false` for both `4111111111111112`
(checksum mismatch) and `5555444433332222` (also a checksum mismatch —
the spec's claim that this vector validates is wrong). -/
theorem luhn_check_characterization :
    (∀ v : List Char, luhnCheck v = luhnAmendedSpec v) ∧
    luhnCheck "4111111111111111".toList = true ∧
    luhnCheck "5555444433332222".toList = false ∧
    luhnCheck "4111111111111112".toList = false := by
  refine ⟨?_, by decide, by decide, by decide⟩
  intro v
  unfold luhnCheck luhnAmendedSpec luhnSumSpec
  simp only [luhnSum_enumFrom, List.enum]
  by_cases h13 : (v.filter Char.isDigit).length < 13
  · have h : ¬ (13 ≤ (v.filter Char.isDigit).length) := by omega
    simp [h13, h]
  · by_cases h19 : 19 < (v.filter Char.isDigit).length
    · have h : ¬ ((v.filter Char.isDigit).length ≤ 19) := by omega
      simp [h19, h]
    · have ha : 13 ≤ (v.filter Char.isDigit).length := by omega
      have hb : (v.filter Char.isDigit).length ≤ 19 := by omega
      simp [h13, h19, ha, hb]

/-- Claim C7, counterexample: on the end-to-end scenario input the masked
output is *not* the claimed
`"Contact John Smith at [EMAIL_001] or [PHONE_001], SSN [SSN_001]."`:
the PHONE regex `\b\(?...` can never match the opening parenthesis after a
space (no word boundary between two non-word characters), so the `(`
survives masking. -/
theorem e2e_masked_content_counterexample :
    (detectPii defaultConfig (none : Backend Unit) e2eText).masked_content ≠
      "Contact John Smith at [EMAIL_001] or [PHONE_001], SSN [SSN_001].".toList := by
  decide

/-- Claim C7 (amended): on the end-to-end scenario input with rule-based
detection only, `detect_pii` finds exactly three entities — EMAIL, PHONE
and SSN (no PERSON for "John Smith") — but the PHONE match is
`"555) 123-4567"` (the opening parenthesis is excluded by the `\b\(?`
pattern), so the masked output is
`"Contact John Smith at [EMAIL_001] or ([PHONE_001], SSN [SSN_001]."`;
the residual and questionable lists are empty. -/
theorem e2e_rule_based_scenario :
    ((detectPii defaultConfig (none : Backend Unit) e2eText).entities_found.map
        (fun e => e.entity_type)) = ["SSN", "PHONE", "EMAIL"] ∧
    ((detectPii defaultConfig (none : Backend Unit) e2eText).entities_found.map
        (fun e => String.mk e.value)) =
      ["123-45-6789", "555) 123-4567", "john.smith@email.com"] ∧
    (detectPii defaultConfig (none : Backend Unit) e2eText).masked_content =
      "Contact John Smith at [EMAIL_001] or ([PHONE_001], SSN [SSN_001].".toList ∧
    (detectPii defaultConfig (none : Backend Unit) e2eText).residual_entities = [] ∧
    (detectPii defaultConfig (none : Backend Unit) e2eText).questionable_entities = [] := by
  refine ⟨by decide, by decide, by decide, by decide, by decide⟩

/-- Claim C8: confidence triage returns exactly the entities with
`min_confidence ≤ confidence ≤ questionable_upper_bound` (the second
component of `questionable_band`; defaults 0.35 and 0.65), setting each
selected entity's `status` to `"questionable"`; every entity in
`questionable_entities` is also present in `entities_found`; and triage
removes nothing — `entities_found` keeps one entity per fused entity and
masking is applied to the full triaged list. -/
theorem triage_characterization :
    (∀ (cfg : Config) (es : List PIIEntity),
      (markQuestionableEntities cfg es).1 =
        es.map (fun e =>
          if cfg.validation.min_confidence ≤ e.confidence ∧
              e.confidence ≤ cfg.validation.questionable_band.2 then
            { e with status := "questionable" } else e) ∧
      (markQuestionableEntities cfg es).2 =
        (markQuestionableEntities cfg es).1.filter (fun e =>
          decide (cfg.validation.min_confidence ≤ e.confidence ∧
            e.confidence ≤ cfg.validation.questionable_band.2)) ∧
      (markQuestionableEntities cfg es).1.length = es.length ∧
      (∀ e ∈ (markQuestionableEntities cfg es).2, e.status = "questionable")) ∧
    (∀ (ε : Type) (cfg : Config) (backend : Backend ε) (text : List Char),
      (∀ e ∈ (detectPii cfg backend text).questionable_entities,
        e ∈ (detectPii cfg backend text).entities_found) ∧
      (detectPii cfg backend text).entities_found.length =
        (fuseAndResolveEntities (detectRuleBased text) (detectMl backend text)).length ∧
      (detectPii cfg backend text).masked_content =
        (maskText cfg text (markQuestionableEntities cfg
          (fuseAndResolveEntities (detectRuleBased text) (detectMl backend text))).1).1) ∧
    defaultConfig.validation.min_confidence = mkRat 35 100 ∧
    defaultConfig.validation.questionable_band.2 = mkRat 65 100 := by
  refine ⟨?_, ?_, rfl, rfl⟩
  · intro cfg es
    refine ⟨rfl, rfl, by simp [markQuestionableEntities], ?_⟩
    intro e he
    unfold markQuestionableEntities at he
    simp only [List.mem_filter, decide_eq_true_eq] at he
    obtain ⟨he1, he2⟩ := he
    rcases List.mem_map.mp he1 with ⟨x, _, hx⟩
    by_cases hband : cfg.validation.min_confidence ≤ x.confidence ∧
        x.confidence ≤ cfg.validation.questionable_band.2
    · rw [← hx, if_pos hband]
    · exfalso
      rw [← hx, if_neg hband] at he2
      exact hband he2
  · intro ε cfg backend text
    refine ⟨?_, ?_, rfl⟩
    · intro e he
      unfold detectPii at he ⊢
      simp only at he ⊢
      unfold maskText
      by_cases hemp : (markQuestionableEntities cfg
          (fuseAndResolveEntities (detectRuleBased text) (detectMl backend text))).1.isEmpty
      · simp only [hemp, if_true]
        unfold markQuestionableEntities at he ⊢
        simp only at he ⊢
        exact List.mem_of_mem_filter he
      · simp only [hemp, if_false]
        have h2 : e ∈ (markQuestionableEntities cfg
            (fuseAndResolveEntities (detectRuleBased text) (detectMl backend text))).1 := by
          unfold markQuestionableEntities at he ⊢
          simp only at he ⊢
          exact List.mem_of_mem_filter he
        exact (sortByStartDesc_perm _).mem_iff.mpr h2
    · unfold detectPii maskText
      simp only
      by_cases hemp : (markQuestionableEntities cfg
          (fuseAndResolveEntities (detectRuleBased text) (detectMl backend text))).1.isEmpty
      · rw [if_pos hemp]
        have hnil : (markQuestionableEntities cfg
            (fuseAndResolveEntities (detectRuleBased text) (detectMl backend text))).1 = [] :=
          List.isEmpty_iff.mp hemp
        have hfnil : (fuseAndResolveEntities (detectRuleBased text)
            (detectMl backend text)) = [] := by
          have h := hnil
          unfold markQuestionableEntities at h
          simp only at h
          exact List.map_eq_nil_iff.mp h
        rw [hnil, hfnil]
      · rw [if_neg hemp]
        have hlen : (sortByStartDesc (markQuestionableEntities cfg
            (fuseAndResolveEntities (detectRuleBased text) (detectMl backend text))).1).length =
            (markQuestionableEntities cfg
            (fuseAndResolveEntities (detectRuleBased text) (detectMl backend text))).1.length :=
          (sortByStartDesc_perm _).length_eq
        simp only
        rw [hlen]
        unfold markQuestionableEntities
        simp only
        rw [List.length_map]

/-- Witness for claim C8: with the widened band `[0.35, 0.9]` and a PERSON
entity of model confidence 0.85, the entity is marked questionable, and by
the theorem it is also present in `entities_found`. -/
theorem triage_characterization_witness :
    (⟨"PERSON", "John".toList, 0, 4, mkRat 85 100, "longtransformer_pii",
        "questionable"⟩ : PIIEntity) ∈
      (detectPii wideBandConfig johnBackend "John Smith".toList).entities_found := by
  exact (triage_characterization.2.1 Unit wideBandConfig johnBackend
    "John Smith".toList).1 _ (by decide)

/-- Claim C9: any exception from the model backend is caught inside
`_detect_ml` and never propagates — with the engine's own deterministic
stages the call always completes (first conjunct, for *every* backend,
including raising ones), and each fallible backend variant
(longtransformer, custom model, BERT-NER) that raises yields exactly the
rule-based-only result (next three conjuncts; the base-DeBERTa heuristic
has no failure mode); exceptions from the pattern detector, fusion,
triage, masking, or residual stages propagate to the caller (remaining
conjuncts). -/
theorem model_exception_policy :
    (∀ (ε : Type) (cfg : Config) (backend : Backend ε) (text : List Char),
      detectPiiStaged (pureStages backend) cfg text = .ok (detectPii cfg backend text)) ∧
    (∀ (ε : Type) (cfg : Config) (f : List Char → Except ε PiiDict)
        (text : List Char) (err : ε), f text = .error err →
      detectPii cfg (some (.longtransformer f)) text =
        detectPii cfg (none : Backend ε) text) ∧
    (∀ (ε : Type) (cfg : Config) (f : List Char → Except ε PiiDict)
        (text : List Char) (err : ε), f text = .error err →
      detectPii cfg (some (.customModel f)) text =
        detectPii cfg (none : Backend ε) text) ∧
    (∀ (ε : Type) (cfg : Config)
        (f : List Char → Except ε (List (String × String)))
        (text : List Char) (err : ε), f text = .error err →
      detectPii cfg (some (.bertNer f)) text =
        detectPii cfg (none : Backend ε) text) ∧
    (∀ (ε : Type) (cfg : Config) (S : DetectStages ε) (text : List Char) (e : ε),
      (S.ruleStage text = .error e → detectPiiStaged S cfg text = .error e) ∧
      (∀ r, S.ruleStage text = .ok r →
        S.fuseStage r (detectMl S.backend text) = .error e →
        detectPiiStaged S cfg text = .error e) ∧
      (∀ r a, S.ruleStage text = .ok r →
        S.fuseStage r (detectMl S.backend text) = .ok a →
        ∀ mk, S.triageStage cfg a = .ok mk →
          S.maskStage cfg text mk.1 = .error e →
          detectPiiStaged S cfg text = .error e)) := by
  refine ⟨?_, ?_, ?_, ?_, ?_⟩
  · intro ε cfg backend text
    rfl
  · intro ε cfg f text err herr
    unfold detectPii detectMl
    simp only [herr]
  · intro ε cfg f text err herr
    unfold detectPii detectMl
    simp only [herr]
  · intro ε cfg f text err herr
    unfold detectPii detectMl
    simp only [herr]
  · intro ε cfg S text e
    refine ⟨?_, ?_, ?_⟩
    · intro h
      simp only [detectPiiStaged, bind, Except.bind, h]
    · intro r hr hf
      simp only [detectPiiStaged, bind, Except.bind, hr, hf]
    · intro r a hr hf mk hmk hm
      simp only [detectPiiStaged, bind, Except.bind, hr, hf, hmk, hm]

/-- Witness for claim C9: a longtransformer backend that raises on every
input produces exactly the rule-only result, and an error in the
pattern-detector stage propagates. -/
theorem model_exception_policy_witness :
    detectPii defaultConfig
        (some (.longtransformer (fun _ => (.error () : Except Unit PiiDict))))
        "a@b.co".toList =
      detectPii defaultConfig (none : Backend Unit) "a@b.co".toList ∧
    detectPiiStaged
        { pureStages (none : Backend Nat) with ruleStage := fun _ => .error 7 }
        defaultConfig "a@b.co".toList = .error 7 := by
  constructor
  · exact model_exception_policy.2.1 Unit defaultConfig _ "a@b.co".toList () rfl
  · exact (model_exception_policy.2.2.2.2 Nat defaultConfig _ "a@b.co".toList 7).1 rfl

theorem maskAssignments_mask_mem (cfg : Config) :
    ∀ (tc : List (String × Nat)) (es : List PIIEntity) (e : PIIEntity) (m : List Char),
      (e, m) ∈ maskAssignments cfg tc es → ∃ n, m = maskForEntity cfg e n := by
  intro tc es
  induction es generalizing tc with
  | nil => intro e m hm; cases hm
  | cons e0 rest ih =>
      intro e m hm
      simp only [maskAssignments] at hm
      rcases List.mem_cons.mp hm with heq | htail
      · have he : e = e0 := congrArg Prod.fst heq
        have hmv : m = maskForEntity cfg e0 (bumpCounter tc e0.entity_type).2 :=
          congrArg Prod.snd heq
        subst he
        exact ⟨(bumpCounter tc e.entity_type).2, hmv⟩
      · exact ih _ e m htail

theorem detectPii_masked_spliceAll {ε : Type} (cfg : Config) (backend : Backend ε)
    (text : List Char) :
    (detectPii cfg backend text).masked_content =
      spliceAll text (maskAssignments cfg []
        (detectPii cfg backend text).entities_found) := by
  unfold detectPii maskText
  simp only
  by_cases hemp : (markQuestionableEntities cfg
      (fuseAndResolveEntities (detectRuleBased text) (detectMl backend text))).1.isEmpty
  · rw [if_pos hemp]
    simp only
    rw [List.isEmpty_iff.mp hemp]
    rfl
  · rw [if_neg hemp]

/-- Claim C2 (amended): in every `detect_pii` result, `masked_content` is
exactly the original text with each found entity's assigned replacement
mask spliced over its span, in the order the masking loop walks the
(descending-sorted) entity list (first conjunct); and whenever an assigned
mask still contains the entity's original `value` as a substring, that mask
is a degenerate self-mask: either the entity is free-text, the config is
`PARTIAL_REVEAL`, the mask is the partial-reveal mask of the value, and
every character of the value after the first is `'*'` (so the mask equals
the value it was meant to hide), or the mask is the opaque token
`[TYPE_###]` of the entity's own type and the value survives only as a
fragment of that token (second conjunct). -/
theorem mask_region_characterization :
    (∀ (ε : Type) (cfg : Config) (backend : Backend ε) (text : List Char),
      (detectPii cfg backend text).masked_content =
        spliceAll text (maskAssignments cfg []
          (detectPii cfg backend text).entities_found)) ∧
    (∀ (cfg : Config) (tc : List (String × Nat)) (es : List PIIEntity)
        (e : PIIEntity) (m : List Char),
      (e, m) ∈ maskAssignments cfg tc es → e.value <:+: m →
      (e.entity_type ∉ structuredEntities ∧ e.entity_type ∈ freeTextEntities ∧
        cfg.mask_format = "PARTIAL_REVEAL" ∧ m = partialMask e.value ∧
        ∀ c ∈ e.value.tail, c = '*') ∨
      (∃ n, m = tokenMask e.entity_type n)) := by
  constructor
  · intro ε cfg backend text
    exact detectPii_masked_spliceAll cfg backend text
  · intro cfg tc es e m hmem hinf
    obtain ⟨n, hmask⟩ := maskAssignments_mask_mem cfg tc es e m hmem
    unfold maskForEntity at hmask
    by_cases h1 : e.entity_type ∈ structuredEntities
    · rw [if_pos h1] at hmask
      exact Or.inr ⟨n, hmask⟩
    · rw [if_neg h1] at hmask
      by_cases h2 : e.entity_type ∈ freeTextEntities
      · rw [if_pos h2] at hmask
        by_cases h3 : cfg.mask_format = "PARTIAL_REVEAL"
        · rw [if_pos h3] at hmask
          left
          refine ⟨h1, h2, h3, hmask, ?_⟩
          unfold partialMask at hmask
          by_cases hl : e.value.length > 1
          · rw [if_pos hl] at hmask
            have hmlen : e.value.length = m.length := by
              rw [hmask]
              simp only [List.length_cons, List.length_replicate]
              omega
            have heq : e.value = m := hinf.sublist.eq_of_length hmlen
            intro c hc
            rw [heq, hmask] at hc
            simp only [List.tail_cons] at hc
            exact List.eq_of_mem_replicate hc
          · rw [if_neg hl] at hmask
            intro c hc
            exfalso
            have htl : e.value.tail = [] := by
              cases hv : e.value with
              | nil => rfl
              | cons a t =>
                  rw [hv] at hl
                  simp only [List.length_cons, gt_iff_lt, not_lt] at hl
                  simp only [List.tail_cons]
                  exact List.eq_nil_of_length_eq_zero (by omega)
            rw [htl] at hc
            cases hc
        · rw [if_neg h3] at hmask
          exact Or.inr ⟨n, hmask⟩
      · rw [if_neg h2] at hmask
        exact Or.inr ⟨n, hmask⟩

/-- Claim C2, counterexample: with `mask_format = "PARTIAL_REVEAL"` and a
backend reporting the PERSON value `J*` on the input text `J*`, the
partial-reveal mask for the entity is `J*` itself — the region of
`masked_content` corresponding to the entity's replacement contains the
original value verbatim. -/
theorem partial_reveal_value_survives_counterexample :
    (detectPii partialRevealConfig starBackend "J*".toList).entities_found =
      [⟨"PERSON", ['J', '*'], 0, 2, mkRat 85 100, "longtransformer_pii",
        "auto_masked"⟩] ∧
    maskAssignments partialRevealConfig []
        (detectPii partialRevealConfig starBackend "J*".toList).entities_found =
      [(⟨"PERSON", ['J', '*'], 0, 2, mkRat 85 100, "longtransformer_pii",
        "auto_masked"⟩, ['J', '*'])] ∧
    (detectPii partialRevealConfig starBackend "J*".toList).masked_content =
      ['J', '*'] ∧
    List.IsInfix ['J', '*'] ['J', '*'] := by
  refine ⟨by decide, by decide, by decide, by decide⟩

/-- Witness for claim C2: instantiating the amended theorem on the
counterexample assignment itself — the PERSON entity with value `J*` under
`PARTIAL_REVEAL` whose assigned mask contains the value — the
characterization identifies it as the degenerate partial-reveal self-mask
(or a token of its own type). -/
theorem mask_region_characterization_witness :
    ((⟨"PERSON", ['J', '*'], 0, 2, mkRat 85 100, "longtransformer_pii",
        "auto_masked"⟩ : PIIEntity).entity_type ∉ structuredEntities ∧
      "PERSON" ∈ freeTextEntities ∧
      partialRevealConfig.mask_format = "PARTIAL_REVEAL" ∧
      (['J', '*'] : List Char) =
        partialMask (⟨"PERSON", ['J', '*'], 0, 2, mkRat 85 100,
          "longtransformer_pii", "auto_masked"⟩ : PIIEntity).value ∧
      ∀ c ∈ (['J', '*'] : List Char).tail, c = '*') ∨
    (∃ n, (['J', '*'] : List Char) = tokenMask "PERSON" n) := by
  exact mask_region_characterization.2 partialRevealConfig []
    [⟨"PERSON", ['J', '*'], 0, 2, mkRat 85 100, "longtransformer_pii",
      "auto_masked"⟩]
    ⟨"PERSON", ['J', '*'], 0, 2, mkRat 85 100, "longtransformer_pii",
      "auto_masked"⟩
    ['J', '*'] (by decide) (by decide)

end PIICloak
